import Mathlib

/-!
Verification of the device-info resolution and naming layer of
`yubikey-manager` (`yubikit/support.py`, `ykman/driver_ccid.py`).

The Python code is shallowly embedded: capability and USB-interface
bitsets become `Nat` bitmasks, the per-transport capability dictionaries
become a record with one optional entry per transport (the transport
enum has exactly the members USB and NFC), and the I/O performed by the
transport resolvers is abstracted into explicit oracles describing the
device's response to each request, with errors as an `Except` value.
-/

namespace YkSupport

/-- Modelled from the spec: the capability bitset constants (`CAPABILITY`
in `yubikit/management.py`, which is outside the analysed sources). The
spec describes a bitset of named applet/feature flags supporting union,
intersection and negation; the bit values used here are the well-known
wire values of the protocol. -/
def capOTP : Nat := 0x01

def capU2F : Nat := 0x02

def capOPENPGP : Nat := 0x08

def capPIV : Nat := 0x10

def capOATH : Nat := 0x20

def capHSMAUTH : Nat := 0x100

def capFIDO2 : Nat := 0x200

/-- Modelled from the spec: the USB interface bits (`USB_INTERFACE` in
`yubikit/management.py`, outside the analysed sources): enum
{OTP, FIDO, CCID} as a bitset. -/
def ifOTP : Nat := 0x01

def ifFIDO : Nat := 0x02

def ifCCID : Nat := 0x04

/-- Clear the bits of `m` from `x` (the effect of Python's
`x &= ~m` on the capability bitsets). Written with kernel-reducible
operations; equal to bitwise AND-NOT. -/
def clearBits (x m : Nat) : Nat := x ^^^ (x &&& m)

/-- `x` is a sub-bitset of `y`. -/
def bitsSubset (x y : Nat) : Prop := x &&& y = x

instance (x y : Nat) : Decidable (bitsSubset x y) := by
  unfold bitsSubset; infer_instance

/-- Modelled from the spec: `Version` is an ordered triple
(major, minor, patch), totally ordered lexicographically
(`yubikit/core.py`, outside the analysed sources). -/
structure Version where
  major : Nat
  minor : Nat
  patch : Nat
deriving DecidableEq, Repr

/-- Lexicographic strict order on versions (Python tuple `<`). -/
def verLT (a b : Version) : Bool :=
  Nat.blt a.major b.major ||
    (a.major == b.major &&
      (Nat.blt a.minor b.minor ||
        (a.minor == b.minor && Nat.blt a.patch b.patch)))

/-- Lexicographic order on versions (Python tuple `<=`). -/
def verLE (a b : Version) : Bool :=
  verLT a b || (a == b)

/-- Modelled from the spec: the form-factor enumeration
(`FORM_FACTOR` in `yubikit/management.py`, outside the analysed
sources): keychain, nano, bio and lightning variants plus unknown. -/
inductive FORM_FACTOR where
  | UNKNOWN
  | USB_A_KEYCHAIN
  | USB_A_NANO
  | USB_C_KEYCHAIN
  | USB_C_NANO
  | USB_C_LIGHTNING
  | USB_A_BIO
  | USB_C_BIO
deriving DecidableEq, Repr

/-- Modelled from the spec: the key-type classification
(`YUBIKEY` in `yubikit/core.py`, outside the analysed sources). -/
inductive YUBIKEY where
  | YKS
  | NEO
  | SKY
  | YKP
  | YK4
deriving DecidableEq, Repr

/-- Modelled from the spec: the display string attached to each
`YUBIKEY` enum member (its `.value` in `yubikit/core.py`). -/
def YUBIKEY.value : YUBIKEY → String
  | .YKS => "YubiKey Standard"
  | .NEO => "YubiKey NEO"
  | .SKY => "Security Key by Yubico"
  | .YKP => "YubiKey Plus"
  | .YK4 => "YubiKey"

/-- A per-transport map of capability bitsets: the Python dicts keyed by
`TRANSPORT` (whose only members are USB and NFC); `none` means the key
is absent from the dict. -/
structure CapMap where
  usb : Option Nat
  nfc : Option Nat
deriving DecidableEq, Repr

/-- Modelled from the spec: `DeviceConfig` (in `yubikit/management.py`,
outside the analysed sources) — per-transport enabled-capability map,
timeouts and device flags. -/
structure DeviceConfig where
  enabled_capabilities : CapMap
  auto_eject_timeout : Nat
  challenge_response_timeout : Nat
  device_flags : Nat
deriving DecidableEq, Repr

/-- Modelled from the spec: `DeviceInfo` (in `yubikit/management.py`,
outside the analysed sources) — the resolved record with serial,
version, form factor, FIPS/SKY/lock flags, per-transport supported
capabilities and an owned `DeviceConfig`. -/
structure DeviceInfo where
  config : DeviceConfig
  serial : Option Nat
  version : Version
  form_factor : FORM_FACTOR
  supported_capabilities : CapMap
  is_locked : Bool
  is_fips : Bool := false
  is_sky : Bool := false
deriving DecidableEq, Repr

/-- `DeviceInfo.has_transport`: whether the transport key is present in
the supported-capabilities dict. -/
def DeviceInfo.has_transport_usb (info : DeviceInfo) : Bool :=
  info.supported_capabilities.usb.isSome

def DeviceInfo.has_transport_nfc (info : DeviceInfo) : Bool :=
  info.supported_capabilities.nfc.isSome

/-- `is_fips_version` from `yubikit/support.py`: true iff
(4,4,0) <= version < (4,5,0). -/
def is_fips_version (version : Version) : Bool :=
  verLE ⟨4, 4, 0⟩ version && verLT version ⟨4, 5, 0⟩

/-- `BASE_NEO_APPS` from `yubikit/support.py`. -/
def BASE_NEO_APPS : Nat := capOTP ||| capOATH ||| capPIV ||| capOPENPGP

/-- The usb-enabled derivation inside `read_info`: starting from the
supported USB set captured *before* the Edge narrowing, mask out the
capabilities whose USB interface is absent from `interfaces`. -/
def deriveUsbEnabled (interfaces : Nat) (supUsb : Nat) : Nat :=
  let e := supUsb
  let e := if interfaces &&& ifOTP = 0 then clearBits e capOTP else e
  let e := if interfaces &&& ifFIDO = 0 then clearBits e (capU2F ||| capFIDO2) else e
  if interfaces &&& ifCCID = 0 then
    clearBits e (ifCCID ||| capOATH ||| capOPENPGP ||| capPIV)
  else e

/-- Step 1 of the normalization phase of `read_info`
(`yubikit/support.py` lines 279-304): set usb_enabled if missing,
narrowing supported to OTP|U2F first when the raw supported USB set is
the YubiKey Edge combination `CAPABILITY.OTP | CAPABILITY.U2F |
USB_INTERFACE.CCID`. Note that the replacement dict drops every other
transport key, and that `usb_enabled` was captured before the
narrowing. -/
def normStep1 (interfaces : Nat) (info : DeviceInfo) : DeviceInfo :=
  match info.supported_capabilities.usb, info.config.enabled_capabilities.usb with
  | some supUsb, none =>
    let info' :=
      if supUsb = capOTP ||| capU2F ||| ifCCID then
        { info with supported_capabilities := ⟨some (capOTP ||| capU2F), none⟩ }
      else info
    { info' with
        config := { info'.config with
          enabled_capabilities := { info'.config.enabled_capabilities with
            usb := some (deriveUsbEnabled interfaces supUsb) } } }
  | _, _ => info

/-- Step 2: YK4-based FIPS versions set the FIPS flag
(`yubikit/support.py` lines 306-308). The flag is only ever set, never
cleared. -/
def normStep2 (info : DeviceInfo) : DeviceInfo :=
  if is_fips_version info.version then { info with is_fips := true } else info

/-- Step 3: set nfc_enabled to the supported NFC set if missing
(`yubikit/support.py` lines 310-317). -/
def normStep3 (info : DeviceInfo) : DeviceInfo :=
  if info.has_transport_nfc && info.config.enabled_capabilities.nfc.isNone then
    { info with
        config := { info.config with
          enabled_capabilities := { info.config.enabled_capabilities with
            nfc := info.supported_capabilities.nfc } } }
  else info

/-- Step 4: strip NFC entries from both maps for firmware >= 4.0.0 on
form factors known not to have NFC (`yubikit/support.py` lines
319-330). -/
def normStep4 (info : DeviceInfo) : DeviceInfo :=
  if verLE ⟨4, 0, 0⟩ info.version &&
      (info.form_factor ∈
          [FORM_FACTOR.USB_A_NANO, FORM_FACTOR.USB_C_NANO,
            FORM_FACTOR.USB_C_LIGHTNING] ||
        (info.form_factor = FORM_FACTOR.USB_C_KEYCHAIN &&
          verLT info.version ⟨5, 2, 4⟩)) then
    { info with
        supported_capabilities := { info.supported_capabilities with nfc := none },
        config := { info.config with
          enabled_capabilities := { info.config.enabled_capabilities with
            nfc := none } } }
  else info

/-- The whole normalization phase of `read_info`
(`yubikit/support.py` lines 279-333), applied to a raw `DeviceInfo`
returned by one of the transport resolvers, with the `interfaces`
bitset computed from the PID. -/
def normalize (interfaces : Nat) (info : DeviceInfo) : DeviceInfo :=
  normStep4 (normStep3 (normStep2 (normStep1 interfaces info)))

/-- `_fido_only` from `yubikit/support.py`: the capability set has no
bits outside U2F and FIDO2. -/
def fido_only (capabilities : Nat) : Bool :=
  clearBits capabilities (capU2F ||| capFIDO2) == 0

/-- `_is_preview` from `yubikit/support.py`: three half-open version
windows of unreleased engineering builds. -/
def is_preview (version : Version) : Bool :=
  (verLE ⟨5, 0, 0⟩ version && verLT version ⟨5, 1, 0⟩) ||
    (verLE ⟨5, 2, 0⟩ version && verLT version ⟨5, 2, 3⟩) ||
    (verLE ⟨5, 5, 0⟩ version && verLT version ⟨5, 5, 2⟩)

/-- Python's `str.replace` on character lists: replace each
non-overlapping occurrence of `pat`, scanning left to right, with fuel
bounding the recursion by the length of the subject string. -/
def replaceChars : Nat → List Char → List Char → List Char → List Char
  | 0, s, _, _ => s
  | _, [], _, _ => []
  | fuel + 1, c :: rest, pat, rep =>
    if pat.isPrefixOf (c :: rest) && pat ≠ [] then
      rep ++ replaceChars fuel (List.drop pat.length (c :: rest)) pat rep
    else
      c :: replaceChars fuel rest pat rep

/-- Python's `str.replace` for nonempty patterns, on `String`. -/
def pyReplace (s pat rep : String) : String :=
  ⟨replaceChars s.data.length s.data pat.data rep.data⟩

/-- Membership of a single-bit flag in a bitset (Python's
`flag in bitset` on `IntFlag`): all bits of the flag are present. -/
def flagIn (flag bitset : Nat) : Bool :=
  bitset &&& flag == flag

/-- The key-type classification at the head of `get_name`
(`yubikit/support.py` lines 355-361): used when no key-type hint is
given. -/
def classifyKeyType (info : DeviceInfo) (usb_supported : Nat) : YUBIKEY :=
  if info.serial = none && fido_only usb_supported then .SKY
  else if info.version.major == 3 then .NEO
  else .YK4

/-- `get_name` from `yubikit/support.py` (lines 352-423). The Python
code indexes `supported_capabilities[TRANSPORT.USB]` unconditionally;
a missing USB entry raises, modelled as `none`. -/
def get_name (info : DeviceInfo) (key_type? : Option YUBIKEY) : Option String :=
  match info.supported_capabilities.usb with
  | none => none
  | some usb_supported =>
    let key_type :=
      match key_type? with
      | some kt => kt
      | none => classifyKeyType info usb_supported
    let device_name := key_type.value
    if key_type = .SKY then
      let device_name :=
        if !flagIn capFIDO2 usb_supported then "FIDO U2F Security Key"
        else device_name
      let device_name :=
        if info.has_transport_nfc then "Security Key NFC" else device_name
      some device_name
    else if key_type = .YK4 then
      let major_version := info.version.major
      if major_version < 4 then
        if major_version == 0 then
          some ("YubiKey (" ++ toString info.version.major ++ "." ++
            toString info.version.minor ++ "." ++ toString info.version.patch ++ ")")
        else
          some "YubiKey"
      else
        let device_name :=
          if major_version == 4 then
            if is_fips_version info.version then "YubiKey FIPS"
            else if usb_supported = capOTP ||| capU2F then "YubiKey Edge"
            else "YubiKey 4"
          else device_name
        if is_preview info.version then
          some "YubiKey Preview"
        else if verLE ⟨5, 1, 0⟩ info.version then
          let is_nano := info.form_factor ∈
            [FORM_FACTOR.USB_A_NANO, FORM_FACTOR.USB_C_NANO]
          let is_bio := info.form_factor ∈
            [FORM_FACTOR.USB_A_BIO, FORM_FACTOR.USB_C_BIO]
          let is_c := info.form_factor ∈
            [FORM_FACTOR.USB_C_KEYCHAIN, FORM_FACTOR.USB_C_NANO,
              FORM_FACTOR.USB_C_BIO]
          let name_parts :=
            if info.is_sky then ["Security Key"]
            else "YubiKey" :: (if !is_bio then ["5"] else [])
          let name_parts := name_parts ++
            (if is_c then ["C"]
             else if info.form_factor = FORM_FACTOR.USB_C_LIGHTNING then ["Ci"]
             else [])
          let name_parts := name_parts ++ (if is_nano then ["Nano"] else [])
          let name_parts := name_parts ++
            (if info.has_transport_nfc then ["NFC"]
             else if info.form_factor = FORM_FACTOR.USB_A_KEYCHAIN then ["A"]
             else [])
          let name_parts := name_parts ++
            (if is_bio then
              "Bio" :: (if fido_only usb_supported then ["- FIDO Edition"] else [])
             else [])
          let name_parts := name_parts ++ (if info.is_fips then ["FIPS"] else [])
          some (pyReplace (pyReplace (String.intercalate " " name_parts)
            "5 C" "5C") "5 A" "5A")
        else
          some device_name
    else
      some device_name

/-! ## Transport resolvers

The resolvers perform I/O against the device; each request the Python
code can make is abstracted into an oracle field describing the
device's reply, with the error taxonomy of the spec as an inductive
type. `Except.error e` models the corresponding Python exception being
raised by the request. -/

/-- The error taxonomy: `ApplicationNotAvailableError`,
`NotSupportedError`, `CommandRejectedError`, protocol errors and
channel (communication) errors. -/
inductive Err where
  | appNotAvailable
  | notSupported
  | commandRejected
  | protocolError
  | channelError
deriving DecidableEq, Repr

/-- Oracle for the CTAP resolver: the combined result of
`ManagementSession(conn)` followed by `mgmt.read_device_info()`. -/
structure CtapDev where
  mgmtInfo : Except Err DeviceInfo

/-- The synthesized fallback of `_read_info_ctap`
(`yubikit/support.py` lines 228-254). -/
def ctapFallback (key_type : Option YUBIKEY) : DeviceInfo :=
  let version : Version :=
    if key_type = some .YKP then ⟨4, 0, 0⟩ else ⟨3, 0, 0⟩
  let supported_apps : CapMap :=
    if key_type = some .NEO then
      ⟨some (capU2F ||| BASE_NEO_APPS), some (capU2F ||| BASE_NEO_APPS)⟩
    else ⟨some capU2F, none⟩
  { config := ⟨⟨none, none⟩, 0, 0, 0⟩
    serial := none
    version := version
    form_factor := .USB_A_KEYCHAIN
    supported_capabilities := supported_apps
    is_locked := false }

/-- `_read_info_ctap` (`yubikit/support.py` lines 224-254): try the
management session; the `except Exception` clause catches *every*
failure and synthesizes a best guess. -/
def read_info_ctap (dev : CtapDev) (key_type : Option YUBIKEY) :
    Except Err DeviceInfo :=
  match dev.mgmtInfo with
  | .ok info => .ok info
  | .error _ => .ok (ctapFallback key_type)

/-- Oracles for the CCID resolver (`_read_info_ccid`): one field per
I/O request the Python code can issue. `otpData` is the result of
`_otp_read_data` (its internal catch-all already reduces a failed
serial read to `none`, while a failure to open the OTP application or
read its version escapes). `scan` gives the outcome of selecting each
AID of `SCAN_APPLETS`, in table order. -/
structure CcidDev where
  mgmtVersion : Except Err Version
  mgmtInfo : Except Err DeviceInfo
  deselect : Except Err Unit
  otpData : Except Err (Version × Option Nat)
  scan : Fin 5 → Except Err Unit

/-- The capability codes of the `SCAN_APPLETS` table, in order:
FIDO → U2F, legacy Yubico U2F AID → U2F, PIV, OpenPGP, OATH. -/
def SCAN_APPLETS_codes : Fin 5 → Nat
  | 0 => capU2F
  | 1 => capU2F
  | 2 => capPIV
  | 3 => capOPENPGP
  | 4 => capOATH

/-- The applet scan of `_read_info_ccid` (lines 122-137): each probe is
isolated — a successful select contributes its capability code, any
failure (the `except` clauses cover everything) is skipped. -/
def scanCapabilities (dev : CcidDev) : Nat :=
  (List.finRange 5).foldl
    (fun acc i =>
      match dev.scan i with
      | .ok _ => acc ||| SCAN_APPLETS_codes i
      | .error _ => acc)
    0

/-- Builds the synthesized `DeviceInfo` of `_read_info_ccid` (lines
139-158) from the scan results, the resolved version, the serial and
the base capability set, adding U2F for a present FIDO interface or
version >= 3.3.0. The supported map records the same set for USB and
NFC. -/
def ccidSynth (dev : CcidDev) (interfaces : Nat) (version : Version)
    (serial : Option Nat) (caps0 : Nat) : DeviceInfo :=
  let capabilities := caps0 ||| scanCapabilities dev
  let capabilities :=
    if flagIn ifFIDO interfaces || verLE ⟨3, 3, 0⟩ version then
      capabilities ||| capU2F
    else capabilities
  { config := ⟨⟨none, none⟩, 0, 0, 0⟩
    serial := serial
    version := version
    form_factor := .UNKNOWN
    supported_capabilities := ⟨some capabilities, some capabilities⟩
    is_locked := false }

/-- The synthesize path of `_read_info_ccid` (lines 105-158), entered
with the version obtained from the management applet, if any. A
failure to open the OTP application loses the serial; any other error
from `_otp_read_data` propagates. -/
def ccidFallback (dev : CcidDev) (interfaces : Nat) (version0 : Option Version) :
    Except Err DeviceInfo :=
  match dev.otpData with
  | .error .appNotAvailable =>
    .ok (ccidSynth dev interfaces (version0.getD ⟨3, 0, 0⟩) none 0)
  | .error e => .error e
  | .ok (otp_version, serial) =>
    .ok (ccidSynth dev interfaces (version0.getD otp_version) serial capOTP)

/-- `_read_info_ccid` (`yubikit/support.py` lines 92-158): attempt the
management session; `NotSupportedError` from `read_device_info`
triggers the NEO de-select then the fallback,
`ApplicationNotAvailableError` anywhere under the outer `try` also
falls back (keeping the version when it was already read); every other
error propagates. -/
def read_info_ccid (dev : CcidDev) (interfaces : Nat) :
    Except Err DeviceInfo :=
  match dev.mgmtVersion with
  | .error .appNotAvailable => ccidFallback dev interfaces none
  | .error e => .error e
  | .ok v =>
    match dev.mgmtInfo with
    | .ok info => .ok info
    | .error .notSupported =>
      match dev.deselect with
      | .ok _ => ccidFallback dev interfaces (some v)
      | .error .appNotAvailable => ccidFallback dev interfaces (some v)
      | .error e => .error e
    | .error .appNotAvailable => ccidFallback dev interfaces (some v)
    | .error e => .error e

/-- Oracles for the OTP resolver (`_read_info_otp`): `mgmtCreate` is
the outcome of `ManagementSession(conn)`; `mgmtInfo i` the outcome of
`mgmt.read_device_info()` on loop iteration `i`; `getSerial i` the
outcome of `otp.get_serial()` on loop iteration `i`; `otpVersion` the
version reported by the OTP application. -/
structure OtpDev where
  mgmtCreate : Except Err Unit
  mgmtInfo : Nat → Except Err DeviceInfo
  getSerial : Nat → Except Err Nat
  otpVersion : Version

/-- Outcome of the reclaim-retry loop of `_read_info_otp`: either the
management applet answered authoritatively, or the loop left with a
(possibly unknown) serial for the synthesize path; `iters` counts the
loop iterations that ran. -/
inductive OtpLoopResult where
  | mgmtResult (info : DeviceInfo)
  | synth (serial : Option Nat) (iters : Nat)
deriving DecidableEq, Repr

/-- The reclaim-retry loop of `_read_info_otp` (`yubikit/support.py`
lines 171-186), `for _ in range(8)` with a `for ... else` clause.
Arguments: remaining `fuel` (starting at 8), current iteration index
`i`, whether the `otp` session object already exists (`otpSet`), and
the serial read so far. On each iteration: while no OTP session
exists, `read_device_info` is attempted — success returns it, a
`NotSupportedError` switches permanently to the OTP path within the
same iteration, a `CommandRejectedError` sleeps and retries (the
`if otp` guard is false), anything else propagates; with an OTP
session, `get_serial` is attempted — success breaks with the serial, a
`CommandRejectedError` breaks immediately when only the OTP interface
is active and otherwise sleeps and retries, anything else
propagates. -/
def otpLoop (dev : OtpDev) (interfaces : Nat) :
    Nat → Nat → Bool → Option Nat → Except Err OtpLoopResult
  | 0, i, _, serial => .ok (.synth serial i)
  | fuel + 1, i, otpSet, serial =>
    if otpSet then
      match dev.getSerial i with
      | .ok s => .ok (.synth (some s) (i + 1))
      | .error .commandRejected =>
        if interfaces = ifOTP then .ok (.synth serial (i + 1))
        else otpLoop dev interfaces fuel (i + 1) true serial
      | .error e => .error e
    else
      match dev.mgmtInfo i with
      | .ok info => .ok (.mgmtResult info)
      | .error .notSupported =>
        match dev.getSerial i with
        | .ok s => .ok (.synth (some s) (i + 1))
        | .error .commandRejected =>
          if interfaces = ifOTP then .ok (.synth serial (i + 1))
          else otpLoop dev interfaces fuel (i + 1) true serial
        | .error e => .error e
      | .error .commandRejected => otpLoop dev interfaces fuel (i + 1) false serial
      | .error e => .error e

/-- The synthesized fallback of `_read_info_otp` (lines 188-221): the
version comes from the OTP application and the capability table is
keyed by the key-type hint. -/
def otpSynth (dev : OtpDev) (key_type : Option YUBIKEY) (interfaces : Nat)
    (serial : Option Nat) : DeviceInfo :=
  let version := dev.otpVersion
  let capabilities : CapMap :=
    if key_type = some .NEO then
      let usb_supported := BASE_NEO_APPS
      let usb_supported :=
        if flagIn ifFIDO interfaces || verLE ⟨3, 3, 0⟩ version then
          usb_supported ||| capU2F
        else usb_supported
      ⟨some usb_supported, some usb_supported⟩
    else if key_type = some .YKP then
      ⟨some (capOTP ||| capU2F), none⟩
    else
      ⟨some capOTP, none⟩
  { config := ⟨⟨none, none⟩, 0, 0, 0⟩
    serial := serial
    version := version
    form_factor := .UNKNOWN
    supported_capabilities := capabilities
    is_locked := false }

/-- `_read_info_otp` (`yubikit/support.py` lines 161-221): the
management session is attempted once — `ApplicationNotAvailableError`
switches to the OTP path before the loop, any other creation failure
propagates — then the reclaim-retry loop runs and its outcome is
either returned directly (management answered) or fed to the
synthesize path. -/
def read_info_otp (dev : OtpDev) (key_type : Option YUBIKEY)
    (interfaces : Nat) : Except Err DeviceInfo :=
  let run (otpSet : Bool) : Except Err DeviceInfo :=
    match otpLoop dev interfaces 8 0 otpSet none with
    | .ok (.mgmtResult info) => .ok info
    | .ok (.synth serial _) => .ok (otpSynth dev key_type interfaces serial)
    | .error e => .error e
  match dev.mgmtCreate with
  | .error .appNotAvailable => run true
  | .error e => .error e
  | .ok _ => run false

/-! ## `CCIDDriver.read_capabilities` (`ykman/driver_ccid.py`) -/

/-- An ISO-7816 APDU as framed by `CCIDDriver.send_apdu`: 5-byte
header (class, instruction, p1, p2, data length) followed by the
data. -/
structure Apdu where
  cl : Nat
  ins : Nat
  p1 : Nat
  p2 : Nat
  data : List Nat
deriving DecidableEq, Repr

def SW_OK : Nat := 0x9000

def INS_SELECT : Nat := 0xa4

def INS_YK4_CAPABILITIES : Nat := 0x1d

/-- `MGR_AID` from `ykman/driver_ccid.py`. -/
def MGR_AID : List Nat := [0xa0, 0x00, 0x00, 0x05, 0x27, 0x47, 0x11, 0x17]

/-- `CCIDDriver.read_capabilities` (`ykman/driver_ccid.py` lines
85-92), over a transmit oracle mapping each APDU to (response bytes,
status word). Returns the result together with the trace of APDUs
actually issued: firmware 4.2.4 answers the fixed bitmask with no
APDU sent at all; otherwise the management applet is selected, a
non-OK status yields empty capabilities, and otherwise the YK4
capability query is issued. -/
def read_capabilities (transmit : Apdu → List Nat × Nat)
    (version : Version) : List Nat × List Apdu :=
  if version = ⟨4, 2, 4⟩ then
    ([0x03, 0x01, 0x01, 0x3f], [])
  else
    let sel : Apdu := ⟨0, INS_SELECT, 4, 0, MGR_AID⟩
    let (_, sw) := transmit sel
    if sw ≠ SW_OK then ([], [sel])
    else
      let query : Apdu := ⟨0, INS_YK4_CAPABILITIES, 0, 0, []⟩
      let (capa, _) := transmit query
      (capa, [sel, query])

/-! ## Derived predicates and concrete records used in the theorems -/

/-- The enabled-capabilities entry of a transport is accounted for by
the supported entry: an absent enabled entry is fine, a present one
requires a present supported entry containing it. -/
def entrySubset : Option Nat → Option Nat → Prop
  | none, _ => True
  | some _, none => False
  | some e, some s => bitsSubset e s

instance (e s : Option Nat) : Decidable (entrySubset e s) := by
  unfold entrySubset
  rcases e with _ | ev
  · exact inferInstanceAs (Decidable True)
  · rcases s with _ | sv
    · exact inferInstanceAs (Decidable False)
    · exact inferInstanceAs (Decidable (bitsSubset ev sv))

/-- An empty device configuration, as produced by every synthesize
path (`enabled_capabilities={}`). -/
def emptyConfig : DeviceConfig := ⟨⟨none, none⟩, 0, 0, 0⟩

/-- A raw `DeviceInfo` whose supported USB set is the YubiKey Edge
combination `CAPABILITY.OTP | CAPABILITY.U2F | USB_INTERFACE.CCID`,
with empty enabled maps, as a resolver fallback would report it. -/
def edgeRaw : DeviceInfo :=
  { config := emptyConfig
    serial := none
    version := ⟨4, 1, 0⟩
    form_factor := .UNKNOWN
    supported_capabilities := ⟨some (capOTP ||| capU2F ||| ifCCID), none⟩
    is_locked := false }

/-- A raw `DeviceInfo` carrying a FIPS flag set by the resolver, with
a firmware version outside [4.4.0, 4.5.0). -/
def fipsFlaggedRaw : DeviceInfo :=
  { config := emptyConfig
    serial := some 7654321
    version := ⟨5, 3, 0⟩
    form_factor := .USB_A_KEYCHAIN
    supported_capabilities := ⟨some (capOTP ||| capU2F ||| capPIV), none⟩
    is_locked := false
    is_fips := true }

/-- A normalized `DeviceInfo`: version (5,2,0), USB-A keychain form
factor, no NFC transport entry, FIPS flag false. -/
def dev520 : DeviceInfo :=
  { config := ⟨⟨some (capOTP ||| capU2F ||| capPIV), none⟩, 0, 0, 0⟩
    serial := some 123456
    version := ⟨5, 2, 0⟩
    form_factor := .USB_A_KEYCHAIN
    supported_capabilities := ⟨some (capOTP ||| capU2F ||| capPIV), none⟩
    is_locked := false }

/-- `dev520` with the first firmware version past the (5,2,0)-(5,2,3)
preview window. -/
def dev523 : DeviceInfo := { dev520 with version := ⟨5, 2, 3⟩ }

/-- A serial-less device reporting the completely empty supported USB
capability set. -/
def emptyCapsRaw : DeviceInfo :=
  { config := emptyConfig
    serial := none
    version := ⟨4, 3, 1⟩
    form_factor := .USB_A_KEYCHAIN
    supported_capabilities := ⟨some 0, none⟩
    is_locked := false }

/-- A concrete CCID device oracle on which the management applet is
absent, the OTP applet answers, and three of the applet probes
succeed. -/
def ccidDevW : CcidDev :=
  { mgmtVersion := .error .appNotAvailable
    mgmtInfo := .error .appNotAvailable
    deselect := .ok ()
    otpData := .ok (⟨4, 1, 0⟩, some 998877)
    scan := fun i => if i.val ≤ 2 then .ok () else .error .appNotAvailable }

/-- A concrete OTP device oracle: management applet absent, serial
reads rejected on the first three attempts and answered with 43210987
on the fourth. -/
def otpDevW : OtpDev :=
  { mgmtCreate := .error .appNotAvailable
    mgmtInfo := fun _ => .error .appNotAvailable
    getSerial := fun i => if i < 3 then .error .commandRejected else .ok 43210987
    otpVersion := ⟨2, 4, 0⟩ }

/-- Concrete oracles exercising error propagation: a CCID device whose
management session fails with a protocol error, one whose
`read_device_info` fails with a channel error, an OTP device whose
management session fails with a channel error, and one whose serial
read fails with a protocol error. -/
def ccidDevPE : CcidDev :=
  { mgmtVersion := .error .protocolError
    mgmtInfo := .error .protocolError
    deselect := .ok ()
    otpData := .error .appNotAvailable
    scan := fun _ => .error .appNotAvailable }

def ccidDevCE : CcidDev :=
  { ccidDevPE with mgmtVersion := .ok ⟨5, 0, 0⟩, mgmtInfo := .error .channelError }

def otpDevCE : OtpDev :=
  { mgmtCreate := .error .channelError
    mgmtInfo := fun _ => .error .channelError
    getSerial := fun _ => .error .channelError
    otpVersion := ⟨2, 4, 0⟩ }

def otpDevPE : OtpDev :=
  { otpDevCE with
      mgmtCreate := .error .appNotAvailable
      getSerial := fun _ => .error .protocolError }

/-! ## Helper lemmas on bitsets -/

theorem clearBits_testBit (x m i : Nat) :
    (clearBits x m).testBit i = (x.testBit i && !m.testBit i) := by
  unfold clearBits
  rw [Nat.testBit_xor, Nat.testBit_land]
  cases x.testBit i <;> cases m.testBit i <;> rfl

theorem bitsSubset_iff (x y : Nat) :
    bitsSubset x y ↔ ∀ i, x.testBit i = true → y.testBit i = true := by
  constructor
  · intro h i hx
    have hb : (x &&& y).testBit i = x.testBit i := by rw [h]
    rw [Nat.testBit_land, hx] at hb
    simpa using hb
  · intro h
    apply Nat.eq_of_testBit_eq
    intro i
    rw [Nat.testBit_land]
    cases hx : x.testBit i
    · rfl
    · rw [h i hx]
      rfl

theorem bitsSubset_refl (x : Nat) : bitsSubset x x := Nat.and_self x

theorem clearBits_bitsSubset (x m : Nat) : bitsSubset (clearBits x m) x := by
  rw [bitsSubset_iff]
  intro i hi
  rw [clearBits_testBit] at hi
  exact (Bool.and_eq_true_iff.mp hi).1

theorem bitsSubset_trans {x y z : Nat} (hxy : bitsSubset x y)
    (hyz : bitsSubset y z) : bitsSubset x z := by
  rw [bitsSubset_iff] at *
  exact fun i hi => hyz i (hxy i hi)

theorem deriveUsbEnabled_bitsSubset (interfaces supUsb : Nat) :
    bitsSubset (deriveUsbEnabled interfaces supUsb) supUsb := by
  unfold deriveUsbEnabled
  split <;> split <;> split <;>
    first
      | exact bitsSubset_refl _
      | exact clearBits_bitsSubset _ _
      | exact bitsSubset_trans (clearBits_bitsSubset _ _) (clearBits_bitsSubset _ _)
      | exact bitsSubset_trans (clearBits_bitsSubset _ _)
          (bitsSubset_trans (clearBits_bitsSubset _ _) (clearBits_bitsSubset _ _))

/-! ## C2 -/

theorem normStep1_is_fips (interfaces : Nat) (info : DeviceInfo) :
    (normStep1 interfaces info).is_fips = info.is_fips := by
  unfold normStep1
  split
  · split <;> rfl
  · rfl

theorem normStep1_version (interfaces : Nat) (info : DeviceInfo) :
    (normStep1 interfaces info).version = info.version := by
  unfold normStep1
  split
  · split <;> rfl
  · rfl

theorem normStep2_is_fips (info : DeviceInfo) :
    (normStep2 info).is_fips = (info.is_fips || is_fips_version info.version) := by
  unfold normStep2
  split <;> simp_all

theorem normStep2_version (info : DeviceInfo) :
    (normStep2 info).version = info.version := by
  unfold normStep2
  split <;> rfl

theorem normStep3_is_fips (info : DeviceInfo) :
    (normStep3 info).is_fips = info.is_fips := by
  unfold normStep3
  split <;> rfl

theorem normStep4_is_fips (info : DeviceInfo) :
    (normStep4 info).is_fips = info.is_fips := by
  unfold normStep4
  split <;> rfl

/-- C2 counterexample: the claim "the FIPS flag is false for every
version outside [4.4.0, 4.5.0), regardless of the FIPS flag value the
resolver originally reported" is false: a raw `DeviceInfo` with
version (5,3,0) and a resolver-reported FIPS flag keeps the flag set
after normalization, because normalization only ever sets the flag. -/
theorem c2_counterexample :
    is_fips_version fipsFlaggedRaw.version = false ∧
      (normalize 0 fipsFlaggedRaw).is_fips = true := by
  constructor
  · decide
  · decide

/-- C2 (amended): after normalization the FIPS flag is true iff the
firmware version lies in [4.4.0, 4.5.0) or the resolver already
reported the flag as set; for versions in the range the flag is set
unconditionally, for versions outside it is left unchanged. -/
theorem c2_fips_flag (interfaces : Nat) (raw : DeviceInfo) :
    (normalize interfaces raw).is_fips =
      (raw.is_fips || is_fips_version raw.version) := by
  unfold normalize
  rw [normStep4_is_fips, normStep3_is_fips, normStep2_is_fips,
    normStep1_is_fips, normStep1_version]

/-! ## C3 -/

/-- C3 counterexample: `dev520` is normalized (a fixed point of the
normalization phase), has version (5,2,0), USB-A keychain form factor,
no NFC entry and FIPS flag false, yet `get_name` returns
"YubiKey Preview" — version (5,2,0) falls in the preview window
[5.2.0, 5.2.3), whose rule takes precedence — not "YubiKey 5A". -/
theorem c3_counterexample :
    normalize (ifOTP ||| ifFIDO ||| ifCCID) dev520 = dev520 ∧
      get_name dev520 none = some "YubiKey Preview" ∧
      get_name dev520 none ≠ some "YubiKey 5A" := by
  refine ⟨by decide, by decide, by decide⟩

/-- C3 (amended): for a normalized `DeviceInfo` with version (5,2,3)
— the first version of the 5.2 line outside the preview window,
where the claimed composition applies — USB-A keychain form factor,
no NFC entry and FIPS flag false, `get_name` returns "YubiKey 5A";
at (5,2,0) itself the preview rule yields "YubiKey Preview". -/
theorem c3_name_5a :
    normalize (ifOTP ||| ifFIDO ||| ifCCID) dev523 = dev523 ∧
      get_name dev523 none = some "YubiKey 5A" := by
  refine ⟨by decide, by decide⟩

/-! ## C4 -/

/-- C4: the preview-version classifier returns true at (5,2,1), false
at (5,2,3) (end-exclusive) and true at (5,2,0) (start-inclusive). -/
theorem c4_preview_boundaries :
    is_preview ⟨5, 2, 1⟩ = true ∧ is_preview ⟨5, 2, 3⟩ = false ∧
      is_preview ⟨5, 2, 0⟩ = true := by
  decide

/-! ## C8 -/

/-- C8: `CCIDDriver.read_capabilities` at firmware exactly 4.2.4
returns the fixed known-good bitmask 03 01 01 3f without issuing any
APDU (the capability-query path is entirely skipped); at every other
version the management applet select is issued. -/
theorem c8_capabilities_424 :
    (∀ transmit : Apdu → List Nat × Nat,
        read_capabilities transmit ⟨4, 2, 4⟩ = ([0x03, 0x01, 0x01, 0x3f], [])) ∧
      ∀ (transmit : Apdu → List Nat × Nat) (v : Version), v ≠ ⟨4, 2, 4⟩ →
        (⟨0, INS_SELECT, 4, 0, MGR_AID⟩ : Apdu) ∈ (read_capabilities transmit v).2 := by
  constructor
  · intro transmit
    rfl
  · intro transmit v hv
    unfold read_capabilities
    rw [if_neg hv]
    dsimp only
    cases transmit ⟨0, INS_SELECT, 4, 0, MGR_AID⟩ with
    | mk r sw =>
      dsimp only
      split
      · simp
      · dsimp only
        cases transmit ⟨0, INS_YK4_CAPABILITIES, 0, 0, []⟩ with
        | mk capa sw2 => simp

/-- Witness for C8 at a concrete transmit oracle and version. -/
theorem c8_capabilities_424_witness :
    (⟨0, INS_SELECT, 4, 0, MGR_AID⟩ : Apdu) ∈
      (read_capabilities (fun _ => ([], SW_OK)) ⟨5, 0, 0⟩).2 :=
  c8_capabilities_424.2 (fun _ => ([], SW_OK)) ⟨5, 0, 0⟩ (by decide)

/-! ## C9 -/

/-- C9: every `DeviceInfo` produced by the CCID resolver's fallback
path records the same supported capability set for NFC as for USB. -/
theorem c9_ccid_fallback_nfc_mirrors_usb (dev : CcidDev) (interfaces : Nat)
    (version0 : Option Version) (info : DeviceInfo)
    (h : ccidFallback dev interfaces version0 = .ok info) :
    info.supported_capabilities.nfc = info.supported_capabilities.usb := by
  unfold ccidFallback at h
  split at h
  · cases h
    rfl
  · cases h
  · cases h
    rfl

/-- Witness for C9 at a concrete device oracle. -/
theorem c9_ccid_fallback_nfc_mirrors_usb_witness :
    (ccidSynth ccidDevW 0 ⟨4, 1, 0⟩ (some 998877) capOTP).supported_capabilities.nfc =
      (ccidSynth ccidDevW 0 ⟨4, 1, 0⟩ (some 998877) capOTP).supported_capabilities.usb :=
  c9_ccid_fallback_nfc_mirrors_usb ccidDevW 0 none _ (by rfl)

/-! ## C10 -/

/-- C10: with no key-type hint, a `DeviceInfo` with no serial whose
supported USB capability set has no bits outside {U2F, FIDO2} is
classified as the Security Key (SKY) class by the classifier at the
head of `get_name`. -/
theorem c10_fido_only_sky (info : DeviceInfo) (c : Nat)
    (hs : info.serial = none)
    (_hc : info.supported_capabilities.usb = some c)
    (hf : fido_only c = true) :
    classifyKeyType info c = .SKY := by
  unfold classifyKeyType
  rw [if_pos]
  rw [hs, hf]
  decide

/-- Witness for C10: the completely empty capability set on a
serial-less device is classified SKY. -/
theorem c10_fido_only_sky_witness :
    classifyKeyType emptyCapsRaw 0 = .SKY :=
  c10_fido_only_sky emptyCapsRaw 0 (by decide) (by decide) (by decide)

/-! ## C7 -/

/-- C7: in the OTP resolver's bounded (8-iteration) reclaim-retry
loop, a channel rejecting the first three serial reads with
`CommandRejectedError` and answering the fourth, with more than the
OTP USB interface active and the management applet unavailable,
yields a `DeviceInfo` carrying the serial of attempt 4 after exactly 4
of the 8 loop iterations. -/
theorem c7_reclaim_retry (dev : OtpDev) (key_type : Option YUBIKEY)
    (interfaces : Nat) (s : Nat)
    (hm : dev.mgmtCreate = .error .appNotAvailable)
    (h0 : dev.getSerial 0 = .error .commandRejected)
    (h1 : dev.getSerial 1 = .error .commandRejected)
    (h2 : dev.getSerial 2 = .error .commandRejected)
    (h3 : dev.getSerial 3 = .ok s)
    (hi : interfaces ≠ ifOTP) :
    otpLoop dev interfaces 8 0 true none = .ok (.synth (some s) 4) ∧
      4 < 8 ∧
      read_info_otp dev key_type interfaces =
        .ok (otpSynth dev key_type interfaces (some s)) ∧
      (otpSynth dev key_type interfaces (some s)).serial = some s := by
  have hloop : otpLoop dev interfaces 8 0 true none = .ok (.synth (some s) 4) := by
    show otpLoop dev interfaces (7 + 1) 0 true none = .ok (.synth (some s) 4)
    rw [otpLoop, h0, if_neg hi]
    show otpLoop dev interfaces (6 + 1) 1 true none = .ok (.synth (some s) 4)
    rw [otpLoop, h1, if_neg hi]
    show otpLoop dev interfaces (5 + 1) 2 true none = .ok (.synth (some s) 4)
    rw [otpLoop, h2, if_neg hi]
    show otpLoop dev interfaces (4 + 1) 3 true none = .ok (.synth (some s) 4)
    rw [otpLoop, h3]
    rfl
  refine ⟨hloop, by decide, ?_, rfl⟩
  unfold read_info_otp
  rw [hm]
  dsimp only
  rw [hloop]

/-- Witness for C7 at the concrete oracle `otpDevW` with the OTP and
FIDO interfaces active. -/
theorem c7_reclaim_retry_witness :
    otpLoop otpDevW (ifOTP ||| ifFIDO) 8 0 true none =
        .ok (.synth (some 43210987) 4) ∧
      4 < 8 ∧
      read_info_otp otpDevW none (ifOTP ||| ifFIDO) =
        .ok (otpSynth otpDevW none (ifOTP ||| ifFIDO) (some 43210987)) ∧
      (otpSynth otpDevW none (ifOTP ||| ifFIDO) (some 43210987)).serial =
        some 43210987 :=
  c7_reclaim_retry otpDevW none (ifOTP ||| ifFIDO) 43210987
    (by rfl) (by rfl) (by rfl) (by rfl) (by rfl) (by decide)

/-! ## C5 -/

/-- C5 counterexample: the claim that every fallback boundary catches
exactly ApplicationNotAvailable/NotSupported, with ProtocolError
propagating unmodified, is false: the CTAP resolver's `except
Exception` boundary swallows a ProtocolError from the management
session and synthesizes a fallback instead of propagating. -/
theorem c5_counterexample :
    read_info_ctap ⟨Except.error Err.protocolError⟩ none =
        .ok (ctapFallback none) ∧
      read_info_ctap ⟨Except.error Err.protocolError⟩ none ≠
        .error Err.protocolError := by
  refine ⟨rfl, ?_⟩
  intro h
  rw [show read_info_ctap ⟨Except.error Err.protocolError⟩ none =
    .ok (ctapFallback none) from rfl] at h
  exact Except.noConfusion h

/-- C5 (amended): the CCID and OTP resolvers' fallback boundaries
catch only ApplicationNotAvailable/NotSupported (plus CommandRejected
inside the OTP retry loop), so other error kinds arising there
propagate unmodified; the CTAP resolver's single boundary, however,
catches every error kind and never propagates. In order: (1) the CTAP
resolver always returns a `DeviceInfo`; (2) a non-ApplicationNotAvailable
failure to open the CCID management session propagates; (3) a
`read_device_info` failure other than ApplicationNotAvailable /
NotSupported propagates from the CCID resolver; (4) a
non-ApplicationNotAvailable failure to open the OTP management session
propagates; (5) a serial-read failure other than CommandRejected
propagates from the OTP retry loop. -/
theorem c5_propagation :
    (∀ (dev : CtapDev) (key_type : Option YUBIKEY),
        ∃ info, read_info_ctap dev key_type = .ok info) ∧
      (∀ (dev : CcidDev) (interfaces : Nat) (e : Err),
        dev.mgmtVersion = .error e → e ≠ .appNotAvailable →
          read_info_ccid dev interfaces = .error e) ∧
      (∀ (dev : CcidDev) (interfaces : Nat) (v : Version) (e : Err),
        dev.mgmtVersion = .ok v → dev.mgmtInfo = .error e →
          e ≠ .appNotAvailable → e ≠ .notSupported →
          read_info_ccid dev interfaces = .error e) ∧
      (∀ (dev : OtpDev) (key_type : Option YUBIKEY) (interfaces : Nat) (e : Err),
        dev.mgmtCreate = .error e → e ≠ .appNotAvailable →
          read_info_otp dev key_type interfaces = .error e) ∧
      ∀ (dev : OtpDev) (key_type : Option YUBIKEY) (interfaces : Nat) (e : Err),
        dev.mgmtCreate = .error .appNotAvailable →
          dev.getSerial 0 = .error e → e ≠ .commandRejected →
          read_info_otp dev key_type interfaces = .error e := by
  refine ⟨?_, ?_, ?_, ?_, ?_⟩
  · intro dev key_type
    unfold read_info_ctap
    cases dev.mgmtInfo with
    | ok info => exact ⟨info, rfl⟩
    | error e => exact ⟨ctapFallback key_type, rfl⟩
  · intro dev interfaces e hv he
    unfold read_info_ccid
    rw [hv]
    cases e <;> simp_all
  · intro dev interfaces v e hv hi he hn
    unfold read_info_ccid
    rw [hv]
    dsimp only
    rw [hi]
    cases e <;> simp_all
  · intro dev key_type interfaces e hc he
    unfold read_info_otp
    rw [hc]
    cases e <;> simp_all
  · intro dev key_type interfaces e hc hs he
    unfold read_info_otp
    rw [hc]
    dsimp only
    show (match otpLoop dev interfaces 8 0 true none with
      | .ok (.mgmtResult info) => Except.ok info
      | .ok (.synth serial _) =>
        Except.ok (otpSynth dev key_type interfaces serial)
      | .error e => Except.error e) = Except.error e
    have hloop : otpLoop dev interfaces 8 0 true none = .error e := by
      show otpLoop dev interfaces (7 + 1) 0 true none = .error e
      rw [otpLoop, hs]
      cases e <;> simp_all
    rw [hloop]

/-- Witness for C5 at concrete oracles. -/
theorem c5_propagation_witness :
    (∃ info, read_info_ctap ⟨Except.error Err.channelError⟩ none = .ok info) ∧
      read_info_ccid ccidDevPE 0 = .error .protocolError ∧
      read_info_ccid ccidDevCE 0 = .error .channelError ∧
      read_info_otp otpDevCE none 0 = .error .channelError ∧
      read_info_otp otpDevPE none 0 = .error .protocolError := by
  refine ⟨c5_propagation.1 ⟨Except.error Err.channelError⟩ none,
    c5_propagation.2.1 ccidDevPE 0 .protocolError rfl (by decide),
    c5_propagation.2.2.1 ccidDevCE 0 ⟨5, 0, 0⟩ .channelError rfl rfl
      (by decide) (by decide),
    c5_propagation.2.2.2.1 otpDevCE none 0 .channelError rfl (by decide),
    c5_propagation.2.2.2.2 otpDevPE none 0 .protocolError rfl rfl (by decide)⟩

/-! ## C1 -/

/-- C1 counterexample: a raw `DeviceInfo` with no enabled-USB entry
whose supported USB set is the Edge combination, normalized with all
three USB interfaces active, ends with enabled USB = OTP|U2F|CCID-bit
but supported USB narrowed to OTP|U2F: the enabled set is not a subset
of the supported set, because the derivation captured `usb_enabled`
before the Edge narrowing and the CCID-interface bit is only masked
out when the CCID interface is inactive. -/
theorem c1_counterexample :
    edgeRaw.config.enabled_capabilities.usb = none ∧
      (normalize (ifOTP ||| ifFIDO ||| ifCCID) edgeRaw).config.enabled_capabilities.usb =
        some (capOTP ||| capU2F ||| ifCCID) ∧
      (normalize (ifOTP ||| ifFIDO ||| ifCCID) edgeRaw).supported_capabilities.usb =
        some (capOTP ||| capU2F) ∧
      ¬ entrySubset
        (normalize (ifOTP ||| ifFIDO ||| ifCCID) edgeRaw).config.enabled_capabilities.usb
        (normalize (ifOTP ||| ifFIDO ||| ifCCID) edgeRaw).supported_capabilities.usb := by
  refine ⟨rfl, by decide, by decide, by decide⟩

theorem normStep1_enabled_nfc (interfaces : Nat) (info : DeviceInfo) :
    (normStep1 interfaces info).config.enabled_capabilities.nfc =
      info.config.enabled_capabilities.nfc := by
  unfold normStep1
  split
  · split <;> rfl
  · rfl

theorem normStep2_supported (info : DeviceInfo) :
    (normStep2 info).supported_capabilities = info.supported_capabilities := by
  unfold normStep2
  split <;> rfl

theorem normStep2_config (info : DeviceInfo) :
    (normStep2 info).config = info.config := by
  unfold normStep2
  split <;> rfl

theorem normStep3_supported (info : DeviceInfo) :
    (normStep3 info).supported_capabilities = info.supported_capabilities := by
  unfold normStep3
  split <;> rfl

theorem normStep3_enabled_usb (info : DeviceInfo) :
    (normStep3 info).config.enabled_capabilities.usb =
      info.config.enabled_capabilities.usb := by
  unfold normStep3
  split <;> rfl

theorem normStep4_supported_usb (info : DeviceInfo) :
    (normStep4 info).supported_capabilities.usb =
      info.supported_capabilities.usb := by
  unfold normStep4
  split <;> rfl

theorem normStep4_enabled_usb (info : DeviceInfo) :
    (normStep4 info).config.enabled_capabilities.usb =
      info.config.enabled_capabilities.usb := by
  unfold normStep4
  split <;> rfl

/-- When the CCID USB interface is inactive, the derived enabled set
has the CCID-interface bit (bit 2) cleared. -/
theorem deriveUsbEnabled_bit2 (interfaces supUsb : Nat)
    (h : interfaces &&& ifCCID = 0) :
    (deriveUsbEnabled interfaces supUsb).testBit 2 = false := by
  unfold deriveUsbEnabled
  dsimp only
  rw [if_pos h, clearBits_testBit,
    show (ifCCID ||| capOATH ||| capOPENPGP ||| capPIV).testBit 2 = true from by decide]
  simp

/-- When the OTP USB interface is inactive, the derived enabled set
has the OTP bit (bit 0) cleared. -/
theorem deriveUsbEnabled_bit0 (interfaces supUsb : Nat)
    (h : interfaces &&& ifOTP = 0) :
    (deriveUsbEnabled interfaces supUsb).testBit 0 = false := by
  unfold deriveUsbEnabled
  dsimp only
  rw [if_pos h]
  have hmono : ∀ x m i, x.testBit i = false →
      (clearBits x m).testBit i = false := by
    intro x m i hx
    rw [clearBits_testBit, hx]
    rfl
  have h1 : (clearBits supUsb capOTP).testBit 0 = false := by
    rw [clearBits_testBit,
      show (capOTP : Nat).testBit 0 = true from by decide]
    simp
  split <;> split <;>
    first
      | exact hmono _ _ _ (hmono _ _ _ h1)
      | exact hmono _ _ _ h1
      | exact h1

/-- A sub-bitset of OTP|U2F|CCID-bit with bit 2 cleared is a
sub-bitset of OTP|U2F. -/
theorem bitsSubset_otp_u2f (x : Nat)
    (h7 : bitsSubset x (capOTP ||| capU2F ||| ifCCID))
    (h2 : x.testBit 2 = false) :
    bitsSubset x (capOTP ||| capU2F) := by
  rw [bitsSubset_iff] at h7 ⊢
  intro i hi
  have h7i := h7 i hi
  match i with
  | 0 => decide
  | 1 => decide
  | 2 => rw [h2] at hi; exact Bool.noConfusion hi
  | n + 3 =>
    have : (capOTP ||| capU2F ||| ifCCID) < 2 ^ (n + 3) := by
      calc capOTP ||| capU2F ||| ifCCID < 2 ^ 3 := by decide
        _ ≤ 2 ^ (n + 3) := Nat.pow_le_pow_right (by decide) (by omega)
    rw [Nat.testBit_lt_two_pow this] at h7i
    exact Bool.noConfusion h7i

/-- A bitset with bit 0 cleared has empty intersection with the OTP
capability bit. -/
theorem land_capOTP_eq_zero (x : Nat) (h : x.testBit 0 = false) :
    x &&& capOTP = 0 := by
  apply Nat.eq_of_testBit_eq
  intro i
  rw [Nat.testBit_land]
  match i with
  | 0 => rw [h]; rfl
  | n + 1 =>
    have : (capOTP : Nat) < 2 ^ (n + 1) := by
      calc (capOTP : Nat) < 2 ^ 1 := by decide
        _ ≤ 2 ^ (n + 1) := Nat.pow_le_pow_right (by decide) (by omega)
    rw [Nat.testBit_lt_two_pow this]
    simp

theorem entrySubset_self (x : Option Nat) : entrySubset x x := by
  cases x
  · trivial
  · exact bitsSubset_refl _

theorem normalize_enabled_usb (interfaces : Nat) (raw : DeviceInfo) :
    (normalize interfaces raw).config.enabled_capabilities.usb =
      (normStep1 interfaces raw).config.enabled_capabilities.usb := by
  unfold normalize
  rw [normStep4_enabled_usb, normStep3_enabled_usb, normStep2_config]

theorem normalize_supported_usb (interfaces : Nat) (raw : DeviceInfo) :
    (normalize interfaces raw).supported_capabilities.usb =
      (normStep1 interfaces raw).supported_capabilities.usb := by
  unfold normalize
  rw [normStep4_supported_usb, normStep3_supported, normStep2_supported]

theorem normStep1_of_usb_none (interfaces : Nat) (raw : DeviceInfo)
    (h : raw.supported_capabilities.usb = none) :
    normStep1 interfaces raw = raw := by
  unfold normStep1
  split <;> simp_all

theorem normStep1_of_usb_some (interfaces : Nat) (raw : DeviceInfo) (supUsb : Nat)
    (hsup : raw.supported_capabilities.usb = some supUsb)
    (hu : raw.config.enabled_capabilities.usb = none) :
    (normStep1 interfaces raw).config.enabled_capabilities.usb =
        some (deriveUsbEnabled interfaces supUsb) ∧
      (normStep1 interfaces raw).supported_capabilities.usb =
        some (if supUsb = capOTP ||| capU2F ||| ifCCID then capOTP ||| capU2F
          else supUsb) := by
  unfold normStep1
  rw [hsup, hu]
  dsimp only
  split <;> simp_all

theorem normStep4_enabled_nfc_none (info : DeviceInfo)
    (h : info.config.enabled_capabilities.nfc = none) :
    (normStep4 info).config.enabled_capabilities.nfc = none := by
  unfold normStep4
  split <;> simp_all

/-- After steps 3 and 4 of normalization, an initially-absent enabled
NFC entry becomes an entry accounted for by the supported NFC
entry. -/
theorem step34_nfc_subset (info : DeviceInfo)
    (h : info.config.enabled_capabilities.nfc = none) :
    entrySubset ((normStep4 (normStep3 info)).config.enabled_capabilities.nfc)
      ((normStep4 (normStep3 info)).supported_capabilities.nfc) := by
  unfold normStep3
  split
  · unfold normStep4
    split
    · trivial
    · exact entrySubset_self _
  · have h4 := normStep4_enabled_nfc_none info h
    rw [h4]
    trivial

/-- C1 (amended): for a raw `DeviceInfo` entering normalization with
no enabled-capability entries (as every synthesize path produces),
once normalization completes the enabled set is accounted for by the
supported set on both transports — except when the supported USB set
is the Edge combination while the CCID USB interface is active, where
the stale CCID-interface bit survives in the enabled set (the
counterexample); and unconditionally, the OTP capability bit is
cleared from the derived enabled USB set whenever the OTP USB
interface is absent from `interfaces`. -/
theorem c1_enabled_subset_supported :
    (∀ (raw : DeviceInfo) (interfaces : Nat),
        raw.config.enabled_capabilities.usb = none →
        raw.config.enabled_capabilities.nfc = none →
        (raw.supported_capabilities.usb = some (capOTP ||| capU2F ||| ifCCID) →
          interfaces &&& ifCCID = 0) →
        entrySubset (normalize interfaces raw).config.enabled_capabilities.usb
            (normalize interfaces raw).supported_capabilities.usb ∧
          entrySubset (normalize interfaces raw).config.enabled_capabilities.nfc
            (normalize interfaces raw).supported_capabilities.nfc) ∧
      ∀ (raw : DeviceInfo) (interfaces e : Nat),
        raw.config.enabled_capabilities.usb = none →
        interfaces &&& ifOTP = 0 →
        (normalize interfaces raw).config.enabled_capabilities.usb = some e →
        e &&& capOTP = 0 := by
  constructor
  · intro raw interfaces hu hn hEdge
    constructor
    · rw [normalize_enabled_usb, normalize_supported_usb]
      cases hsup : raw.supported_capabilities.usb with
      | none =>
        rw [normStep1_of_usb_none interfaces raw hsup, hu]
        trivial
      | some supUsb =>
        obtain ⟨he, hs⟩ := normStep1_of_usb_some interfaces raw supUsb hsup hu
        rw [he, hs]
        split
        · rename_i hE
          subst hE
          exact bitsSubset_otp_u2f _ (deriveUsbEnabled_bitsSubset _ _)
            (deriveUsbEnabled_bit2 _ _ (hEdge hsup))
        · exact deriveUsbEnabled_bitsSubset _ _
    · show entrySubset
        ((normStep4 (normStep3 (normStep2 (normStep1 interfaces raw)))).config.enabled_capabilities.nfc)
        ((normStep4 (normStep3 (normStep2 (normStep1 interfaces raw)))).supported_capabilities.nfc)
      apply step34_nfc_subset
      rw [normStep2_config, normStep1_enabled_nfc]
      exact hn
  · intro raw interfaces e hu hotp hpost
    rw [normalize_enabled_usb] at hpost
    cases hsup : raw.supported_capabilities.usb with
    | none =>
      rw [normStep1_of_usb_none interfaces raw hsup, hu] at hpost
      exact Option.noConfusion hpost
    | some supUsb =>
      obtain ⟨he, _⟩ := normStep1_of_usb_some interfaces raw supUsb hsup hu
      rw [he] at hpost
      cases hpost
      exact land_capOTP_eq_zero _ (deriveUsbEnabled_bit0 _ _ hotp)

/-- Witness for C1 at a concrete raw record: normalizing `edgeRaw`
(the Edge supported set, empty enabled maps) with only the FIDO
interface active keeps enabled inside supported on both transports,
and the derived enabled USB set has the OTP bit cleared. -/
theorem c1_enabled_subset_supported_witness :
    (entrySubset (normalize ifFIDO edgeRaw).config.enabled_capabilities.usb
        (normalize ifFIDO edgeRaw).supported_capabilities.usb ∧
      entrySubset (normalize ifFIDO edgeRaw).config.enabled_capabilities.nfc
        (normalize ifFIDO edgeRaw).supported_capabilities.nfc) ∧
      2 &&& capOTP = 0 :=
  ⟨c1_enabled_subset_supported.1 edgeRaw ifFIDO rfl rfl (fun _ => by decide),
    c1_enabled_subset_supported.2 edgeRaw ifFIDO 2 rfl (by decide) (by decide)⟩

/-! ## C6 -/

theorem normStep3_version (info : DeviceInfo) :
    (normStep3 info).version = info.version := by
  unfold normStep3
  split <;> rfl

theorem normStep4_version (info : DeviceInfo) :
    (normStep4 info).version = info.version := by
  unfold normStep4
  split <;> rfl

theorem normalize_version (interfaces : Nat) (raw : DeviceInfo) :
    (normalize interfaces raw).version = raw.version := by
  unfold normalize
  rw [normStep4_version, normStep3_version, normStep2_version, normStep1_version]

/-- After normalization, a FIPS-range firmware version implies the
FIPS flag is set. -/
theorem normalize_fips_done (interfaces : Nat) (raw : DeviceInfo)
    (h : is_fips_version (normalize interfaces raw).version = true) :
    (normalize interfaces raw).is_fips = true := by
  rw [normalize_version] at h
  unfold normalize
  rw [normStep4_is_fips, normStep3_is_fips, normStep2_is_fips,
    normStep1_is_fips, normStep1_version, h]
  simp

/-- Step 1 establishes: a present supported-USB entry comes with a
present enabled-USB entry. -/
theorem normStep1_usb_done (interfaces : Nat) (info : DeviceInfo)
    (h : (normStep1 interfaces info).supported_capabilities.usb.isSome = true) :
    (normStep1 interfaces info).config.enabled_capabilities.usb.isSome = true := by
  unfold normStep1 at *
  split at h
  · split at h <;> simp_all
  · rename_i hno
    cases hsup : info.supported_capabilities.usb with
    | none => simp_all
    | some s =>
      cases hen : info.config.enabled_capabilities.usb with
      | none => exact absurd (hno s hsup hen) (fun hf => hf)
      | some e => simp [hen]

theorem normalize_usb_done (interfaces : Nat) (raw : DeviceInfo)
    (h : (normalize interfaces raw).supported_capabilities.usb.isSome = true) :
    (normalize interfaces raw).config.enabled_capabilities.usb.isSome = true := by
  rw [normalize_enabled_usb]
  rw [normalize_supported_usb] at h
  exact normStep1_usb_done interfaces raw h

/-- Step 3 establishes the same for NFC. -/
theorem normStep3_nfc_done (info : DeviceInfo)
    (h : (normStep3 info).supported_capabilities.nfc.isSome = true) :
    (normStep3 info).config.enabled_capabilities.nfc.isSome = true := by
  unfold normStep3 at h ⊢
  split at h <;> rename_i hg
  · rw [if_pos hg]
    exact h
  · rw [if_neg hg]
    cases hen : info.config.enabled_capabilities.nfc with
    | some v => simp [hen]
    | none =>
      exfalso
      apply hg
      unfold DeviceInfo.has_transport_nfc
      rw [hen]
      simp [h]

/-- Step 4 either strips both NFC entries or does nothing. -/
theorem normStep4_cases (info : DeviceInfo) :
    normStep4 info = info ∨
      ((normStep4 info).supported_capabilities.nfc = none ∧
        (normStep4 info).config.enabled_capabilities.nfc = none) := by
  unfold normStep4
  split
  · right
    exact ⟨rfl, rfl⟩
  · left
    rfl

/-- Step 4 preserves the NFC account: it either strips both entries or
leaves the record unchanged. -/
theorem normStep4_nfc_done (info : DeviceInfo)
    (hi : info.supported_capabilities.nfc.isSome = true →
      info.config.enabled_capabilities.nfc.isSome = true)
    (h : (normStep4 info).supported_capabilities.nfc.isSome = true) :
    (normStep4 info).config.enabled_capabilities.nfc.isSome = true := by
  rcases normStep4_cases info with hid | ⟨hs, _⟩
  · rw [hid] at h ⊢
    exact hi h
  · rw [hs] at h
    exact Bool.noConfusion h

theorem normalize_nfc_done (interfaces : Nat) (raw : DeviceInfo)
    (h : (normalize interfaces raw).supported_capabilities.nfc.isSome = true) :
    (normalize interfaces raw).config.enabled_capabilities.nfc.isSome = true := by
  unfold normalize at *
  exact normStep4_nfc_done _ (normStep3_nfc_done _) h

/-- Step 1 is the identity on any record where a present supported-USB
entry already has an enabled-USB entry. -/
theorem normStep1_id (interfaces : Nat) (info : DeviceInfo)
    (hinv : info.supported_capabilities.usb.isSome = true →
      info.config.enabled_capabilities.usb.isSome = true) :
    normStep1 interfaces info = info := by
  unfold normStep1
  split <;> simp_all

/-- Step 2 is the identity when a FIPS-range version already implies a
set flag. -/
theorem normStep2_id (info : DeviceInfo)
    (hinv : is_fips_version info.version = true → info.is_fips = true) :
    normStep2 info = info := by
  unfold normStep2
  split
  · rename_i hc
    have hf := hinv hc
    cases info
    simp_all
  · rfl

/-- Step 3 is the identity on any record where a present supported-NFC
entry already has an enabled-NFC entry. -/
theorem normStep3_id (info : DeviceInfo)
    (hinv : info.supported_capabilities.nfc.isSome = true →
      info.config.enabled_capabilities.nfc.isSome = true) :
    normStep3 info = info := by
  unfold normStep3 DeviceInfo.has_transport_nfc
  split <;> simp_all

/-- Step 4 is the identity on a record with no NFC entries. -/
theorem normStep4_id_of_nfc_none (info : DeviceInfo)
    (hs : info.supported_capabilities.nfc = none)
    (he : info.config.enabled_capabilities.nfc = none) :
    normStep4 info = info := by
  unfold normStep4
  split
  · cases info with
    | mk config serial version form_factor supported is_locked is_fips is_sky =>
      cases config with
      | mk enabled aet crt df =>
        cases supported
        cases enabled
        simp_all
  · rfl

theorem normStep4_idem (info : DeviceInfo) :
    normStep4 (normStep4 info) = normStep4 info := by
  rcases normStep4_cases info with h | ⟨hs, he⟩
  · rw [h]
    exact h
  · exact normStep4_id_of_nfc_none _ hs he

/-- The normalization phase of `read_info` is idempotent. -/
theorem normalize_idem (interfaces : Nat) (raw : DeviceInfo) :
    normalize interfaces (normalize interfaces raw) = normalize interfaces raw := by
  have h1 : normStep1 interfaces (normalize interfaces raw) = normalize interfaces raw :=
    normStep1_id interfaces _ (normalize_usb_done interfaces raw)
  have h2 : normStep2 (normalize interfaces raw) = normalize interfaces raw :=
    normStep2_id _ (normalize_fips_done interfaces raw)
  have h3 : normStep3 (normalize interfaces raw) = normalize interfaces raw :=
    normStep3_id _ (normalize_nfc_done interfaces raw)
  show normStep4 (normStep3 (normStep2 (normStep1 interfaces
    (normalize interfaces raw)))) = normalize interfaces raw
  rw [h1, h2, h3]
  show normStep4 (normStep4 (normStep3 (normStep2 (normStep1 interfaces raw)))) =
    normalize interfaces raw
  rw [normStep4_idem]
  rfl

/-- C6: the normalization phase of `read_info` is idempotent — applying
it twice yields the same supported and enabled capability maps (indeed
the same record) as applying it once, for every raw `DeviceInfo` and
interfaces bitset. -/
theorem c6_normalization_idempotent (interfaces : Nat) (raw : DeviceInfo) :
    (normalize interfaces (normalize interfaces raw)).supported_capabilities =
        (normalize interfaces raw).supported_capabilities ∧
      (normalize interfaces (normalize interfaces raw)).config.enabled_capabilities =
        (normalize interfaces raw).config.enabled_capabilities := by
  rw [normalize_idem]
  exact ⟨rfl, rfl⟩

end YkSupport
